import Mathlib

/-!
Shallow embedding of the `Navigator` module of
spencercarli/react-native-js-navigator-example (src/Navigator.js).

The module keeps a navigation stack of scene descriptors, a scene
configuration table built once from the declared `Route` children, and a
single animated scalar (`_animatedValue`) that drives the horizontal
transition of the top screen.  Screens are opaque renderables; we keep them
as a type parameter `C`.

JavaScript numbers (screen width, gesture coordinates, the animated value)
are modelled as rationals `ℚ`; `Math.floor` is `Int.floor`.  A JavaScript
object-lookup miss (`config[name]` for an absent `name`) yields `undefined`,
modelled as `none`; consequently the stack holds `Option (SceneDesc C)`
entries, exactly as the source can hold `undefined` entries.

Animated operations (`Animated.timing(...).start(cb)`) are modelled in two
phases: the state at animation completion of the timing itself, and the
completion callback `cb`.  A completed operation is the composition of its
phases.
-/

/-- Declared route child: models the props of a `Route` element
(`child.props.name`, `child.props.component`), Navigator.js line 12. -/
structure Child (C : Type) where
  name : String
  component : C
deriving DecidableEq

/-- Scene-table entry: models `{ key: child.props.name, component:
child.props.component }`, Navigator.js line 12. -/
structure SceneDesc (C : Type) where
  key : String
  component : C
deriving DecidableEq

/-- One step of the `children.forEach` loop of `buildSceneConfig`
(Navigator.js lines 11-13): assign
`config[child.props.name] = { key: child.props.name, component: child.props.component }`. -/
def sceneConfigStep {C : Type} (config : String → Option (SceneDesc C)) (child : Child C) :
    String → Option (SceneDesc C) :=
  fun n => if n = child.name then some ⟨child.name, child.component⟩ else config n

/-- Models `buildSceneConfig` (Navigator.js lines 8-16): start from the empty
object and assign an entry per child, in declaration order, so a later
duplicate name overwrites an earlier one. -/
def buildSceneConfig {C : Type} (children : List (Child C)) : String → Option (SceneDesc C) :=
  children.foldl sceneConfigStep (fun _ => none)

/-- Controller state: the two `this.state` fields of the `Navigator`
component (`sceneConfig` and `stack`, Navigator.js lines 25-28) together with
the animated scalar `_animatedValue` (line 31), reframed as one owned state
record.  Stack entries are `Option`s because a lookup miss silently admits
`undefined`. -/
structure NavState (C : Type) where
  sceneConfig : String → Option (SceneDesc C)
  stack : List (Option (SceneDesc C))
  offset : ℚ

/-- Models the `Navigator` component body of the `constructor` (Navigator.js
lines 19-29): build the scene table, resolve the initial scene name as
`props.initialSceneName || props.children[0].props.name`, and seed the stack
with the table entry for that name.  `none` is returned exactly when the
JavaScript would throw (no `initialSceneName` prop and no children). -/
def mkNavigator {C : Type} (children : List (Child C)) (propInitialSceneName : Option String) :
    Option (NavState C) :=
  match propInitialSceneName.orElse (fun _ => children.head?.map (fun c => c.name)) with
  | none => none
  | some initName =>
      some { sceneConfig := buildSceneConfig children
             stack := [buildSceneConfig children initName]
             offset := 0 }

/-- Completed `Animated.timing(this._animatedValue, { toValue: target, ... })`:
the offset ends at `target`. -/
def animateTo {C : Type} (target : ℚ) (s : NavState C) : NavState C :=
  { s with offset := target }

/-- The `setState` updater of `handlePush` (Navigator.js lines 68-71): spread
the previous state and append `state.sceneConfig[sceneName]` to the stack
(an absent name appends `none`). -/
def handlePushSetState {C : Type} (s : NavState C) (sceneName : String) : NavState C :=
  { s with stack := s.stack ++ [s.sceneConfig sceneName] }

/-- The `setState` completion callback of `handlePush` (lines 71-72):
`this._animatedValue.setValue(width)`. -/
def handlePushSetValue {C : Type} (width : ℚ) (s : NavState C) : NavState C :=
  { s with offset := width }

/-- Completed `handlePush` (Navigator.js lines 67-79): mutate the stack
immediately, jump the offset to `width`, then animate it to `0`. -/
def handlePush {C : Type} (width : ℚ) (s : NavState C) (sceneName : String) : NavState C :=
  animateTo 0 (handlePushSetValue width (handlePushSetState s sceneName))

/-- First phase of `handlePop` (Navigator.js lines 82-86): `Animated.timing`
drives the offset to `width` (the off-screen extreme); the stack is untouched
until the animation completes. -/
def handlePopAnimate {C : Type} (width : ℚ) (s : NavState C) : NavState C :=
  { s with offset := width }

/-- Completion callback of `handlePop` (Navigator.js lines 86-98):
`setValue(0)`, then `setState` removes the last stack entry
(`stack.slice(0, stack.length - 1)`) only when `stack.length > 1`, otherwise
the state is returned unchanged. -/
def handlePopFinish {C : Type} (s : NavState C) : NavState C :=
  if s.stack.length > 1 then { s with offset := 0, stack := s.stack.dropLast }
  else { s with offset := 0 }

/-- Completed `handlePop` (Navigator.js lines 81-99). -/
def handlePop {C : Type} (width : ℚ) (s : NavState C) : NavState C :=
  handlePopFinish (handlePopAnimate width s)

/-- Models `onMoveShouldSetPanResponder` (Navigator.js lines 34-42):
admit the gesture iff the stack is not at the base screen and the start
position satisfies `pageX < Math.floor(width * 0.25)`. -/
def onMoveShouldSetPanResponder {C : Type} (width : ℚ) (s : NavState C) (pageX : ℚ) : Bool :=
  let isFirstScreen : Bool := s.stack.length == 1
  let isFarLeft : Bool := decide (pageX < ((⌊width * 0.25⌋ : ℤ) : ℚ))
  if !isFirstScreen && isFarLeft then true else false

/-- Models `onPanResponderMove` (Navigator.js lines 43-45): the offset follows
the gesture position directly (`setValue(gestureState.moveX)`). -/
def onPanResponderMove {C : Type} (s : NavState C) (moveX : ℚ) : NavState C :=
  { s with offset := moveX }

/-- Models `onPanResponderRelease` (Navigator.js lines 47-57): commit a pop
when `Math.floor(gestureState.moveX) >= width / 2`, otherwise animate the
offset back to `0` leaving the stack alone. -/
def onPanResponderRelease {C : Type} (width : ℚ) (s : NavState C) (moveX : ℚ) : NavState C :=
  if ((⌊moveX⌋ : ℤ) : ℚ) ≥ width / 2 then handlePop width s
  else animateTo 0 s

/-- A programmatic navigation request, as exposed to screens via the
`navigator` prop (`push`/`pop`, Navigator.js line 124). -/
inductive NavOp where
  | push (sceneName : String)
  | pop
deriving DecidableEq

/-- Apply one completed navigation operation. -/
def applyOp {C : Type} (width : ℚ) (s : NavState C) : NavOp → NavState C
  | NavOp.push name => handlePush width s name
  | NavOp.pop => handlePop width s

/-- Apply a sequence of completed navigation operations, left to right. -/
def applyOps {C : Type} (width : ℚ) (ops : List NavOp) (s : NavState C) : NavState C :=
  ops.foldl (applyOp width) s

/-! Concrete example data used by witnesses and counterexamples, mirroring
the route declarations of the example `App` component. -/

/-- Two declared routes with distinct names. -/
def exChildren : List (Child String) := [⟨"A", "CompA"⟩, ⟨"B", "CompB"⟩]

/-- Three declared routes where the name of the first one is re-declared
last. -/
def exChildren3 : List (Child String) := [⟨"A", "CompA1"⟩, ⟨"B", "CompB"⟩, ⟨"A", "CompA2"⟩]

/-- The constructed navigator for `exChildren` (seeded one-element stack). -/
def exNav : NavState String :=
  { sceneConfig := buildSceneConfig exChildren
    stack := [buildSceneConfig exChildren ("A")]
    offset := 0 }

/-- The navigator for `exChildren` after a completed push of the second
route: a two-element stack at rest. -/
def exNav2 : NavState String :=
  { sceneConfig := buildSceneConfig exChildren
    stack := [buildSceneConfig exChildren ("A"), buildSceneConfig exChildren ("B")]
    offset := 0 }

/-- The constructed example navigator is exactly `exNav`. -/
lemma mkNavigator_exChildren : mkNavigator exChildren none = some exNav := rfl

/-- A completed push of the second route reaches `exNav2` from `exNav`. -/
lemma exNav2_reachable : applyOps 375 [NavOp.push ("B")] exNav = exNav2 := rfl

/-! General lemmas about the embedded operations. -/

/-- Fields of a freshly constructed navigator: the scene table is the one
built from the children, the stack is a singleton and the offset is at
rest. -/
lemma mkNavigator_fields {C : Type} {children : List (Child C)} {pi : Option String}
    {s0 : NavState C} (h : mkNavigator children pi = some s0) :
    s0.sceneConfig = buildSceneConfig children ∧ s0.stack.length = 1 ∧ s0.offset = 0 := by
  unfold mkNavigator at h
  split at h
  · exact absurd h (by simp)
  · injection h with h
    subst h
    exact ⟨rfl, rfl, rfl⟩

/-- Every completed operation ends with the offset at rest. -/
lemma applyOp_offset {C : Type} (w : ℚ) (s : NavState C) (op : NavOp) :
    (applyOp w s op).offset = 0 := by
  cases op with
  | push name => rfl
  | pop =>
      show (handlePopFinish (handlePopAnimate w s)).offset = 0
      unfold handlePopFinish handlePopAnimate
      split <;> rfl

/-- A sequence of completed operations from a rest state ends at rest. -/
lemma applyOps_offset {C : Type} (w : ℚ) (ops : List NavOp) (s : NavState C)
    (h : s.offset = 0) : (applyOps w ops s).offset = 0 := by
  induction ops generalizing s with
  | nil => exact h
  | cons op t ih =>
      show (List.foldl (applyOp w) (applyOp w s op) t).offset = 0
      exact ih (applyOp w s op) (applyOp_offset w s op)

/-- Neither push nor pop touches the scene table. -/
lemma applyOp_sceneConfig {C : Type} (w : ℚ) (s : NavState C) (op : NavOp) :
    (applyOp w s op).sceneConfig = s.sceneConfig := by
  cases op with
  | push name => rfl
  | pop =>
      show (handlePopFinish (handlePopAnimate w s)).sceneConfig = s.sceneConfig
      unfold handlePopFinish handlePopAnimate
      split <;> rfl

/-- No operation sequence touches the scene table. -/
lemma applyOps_sceneConfig {C : Type} (w : ℚ) (ops : List NavOp) (s : NavState C) :
    (applyOps w ops s).sceneConfig = s.sceneConfig := by
  induction ops generalizing s with
  | nil => rfl
  | cons op t ih =>
      show (List.foldl (applyOp w) (applyOp w s op) t).sceneConfig = s.sceneConfig
      exact (ih (applyOp w s op)).trans (applyOp_sceneConfig w s op)

/-- Each completed operation preserves nonemptiness of the stack. -/
lemma applyOp_stack_length {C : Type} (w : ℚ) (s : NavState C) (op : NavOp)
    (h : 1 ≤ s.stack.length) : 1 ≤ (applyOp w s op).stack.length := by
  cases op with
  | push name =>
      show 1 ≤ (s.stack ++ [s.sceneConfig name]).length
      simp
  | pop =>
      show 1 ≤ (handlePopFinish (handlePopAnimate w s)).stack.length
      unfold handlePopFinish handlePopAnimate
      split
      next h1 =>
        simp only [List.length_dropLast]
        simp only [List.length] at h1
        omega
      next h1 => exact h

/-- Any sequence of completed operations preserves nonemptiness. -/
lemma applyOps_stack_length {C : Type} (w : ℚ) (ops : List NavOp) (s : NavState C)
    (h : 1 ≤ s.stack.length) : 1 ≤ (applyOps w ops s).stack.length := by
  induction ops generalizing s with
  | nil => exact h
  | cons op t ih =>
      show 1 ≤ (List.foldl (applyOp w) (applyOp w s op) t).stack.length
      exact ih (applyOp w s op) (applyOp_stack_length w s op h)

/-- A completed pop on a stack deeper than the base screen removes exactly
the top entry and leaves the offset at rest. -/
lemma handlePop_pops {C : Type} (w : ℚ) (s : NavState C) (h : 1 < s.stack.length) :
    (handlePop w s).stack = s.stack.dropLast ∧
    (handlePop w s).stack.length = s.stack.length - 1 ∧
    (handlePop w s).offset = 0 := by
  unfold handlePop handlePopFinish handlePopAnimate
  rw [if_pos (show ({ s with offset := w } : NavState C).stack.length > 1 from h)]
  exact ⟨rfl, by simp, rfl⟩

/-- Characterisation of the admission predicate: a gesture is admitted iff
the stack is not at the base screen and the start position lies strictly
left of `⌊width * 0.25⌋`. -/
lemma onMoveShouldSetPanResponder_eq_true_iff {C : Type} (w : ℚ) (s : NavState C) (x : ℚ) :
    onMoveShouldSetPanResponder w s x = true ↔
      (s.stack.length ≠ 1 ∧ x < ((⌊w * 0.25⌋ : ℤ) : ℚ)) := by
  unfold onMoveShouldSetPanResponder
  by_cases h1 : s.stack.length = 1 <;>
    by_cases h2 : x < ((⌊w * 0.25⌋ : ℤ) : ℚ) <;>
      simp [h1, h2]

/-- Skipping children whose name differs from `n` leaves the accumulated
table unchanged at `n`. -/
lemma sceneConfig_foldl_skip {C : Type} (l : List (Child C))
    (acc : String → Option (SceneDesc C)) (n : String) (h : ∀ c ∈ l, c.name ≠ n) :
    l.foldl sceneConfigStep acc n = acc n := by
  induction l generalizing acc with
  | nil => rfl
  | cons c t ih =>
      rw [List.foldl_cons,
        ih (sceneConfigStep acc c) (fun c' hc' => h c' (List.mem_cons_of_mem c hc'))]
      unfold sceneConfigStep
      exact if_neg (fun hn => h c (List.mem_cons_self c t) hn.symm)

/-! Claim theorems. -/

/-- C1: for every sequence of completed push and pop operations applied to a
constructed navigator (which is seeded with a one-element stack), the
navigation stack length is always at least 1 — pop never removes the base
screen. -/
theorem C1_stack_never_empty {C : Type} (w : ℚ) (children : List (Child C))
    (pi : Option String) (s0 : NavState C) (h : mkNavigator children pi = some s0)
    (ops : List NavOp) : 1 ≤ (applyOps w ops s0).stack.length :=
  applyOps_stack_length w ops s0 (by rw [(mkNavigator_fields h).2.1])

/-- Witness for C1: a concrete navigator with two routes, after a push and
two pops, still has a nonempty stack. -/
theorem C1_stack_never_empty_witness :
    1 ≤ (applyOps 375 [NavOp.push ("B"), NavOp.pop, NavOp.pop] exNav).stack.length :=
  C1_stack_never_empty 375 exChildren none exNav rfl [NavOp.push ("B"), NavOp.pop, NavOp.pop]

/-- C2 counterexample: pushing the undeclared name "C" does not leave the
stack unchanged and raises no error — the stack grows from one to two
entries and the new top is the undefined (`none`) entry, which the claim
says must never be admitted. -/
theorem C2_push_invalid_counterexample :
    buildSceneConfig exChildren ("C") = none ∧
    exNav.stack.length = 1 ∧
    (handlePush 375 exNav ("C")).stack.length = 2 ∧
    (handlePush 375 exNav ("C")).stack.getLast? = some none := by
  refine ⟨by decide, rfl, rfl, ?_⟩
  show (exNav.stack ++ [exNav.sceneConfig ("C")]).getLast? = some none
  rw [List.getLast?_concat]
  decide

/-- C2 (amended): pushing a name absent from the scene table does not fail
and does not leave the stack unchanged: it silently appends the undefined
entry (`none`), growing the stack by exactly one, and runs the usual push
transition, so the offset ends at rest. -/
theorem C2_push_invalid_appends_none {C : Type} (w : ℚ) (s : NavState C) (name : String)
    (h : s.sceneConfig name = none) :
    (handlePush w s name).stack = s.stack ++ [none] ∧
    (handlePush w s name).stack.length = s.stack.length + 1 ∧
    (handlePush w s name).offset = 0 := by
  unfold handlePush animateTo handlePushSetValue handlePushSetState
  exact ⟨by rw [h], by simp, rfl⟩

/-- Witness for the amended C2 at the concrete navigator and the undeclared
name "C". -/
theorem C2_push_invalid_appends_none_witness :
    (handlePush 375 exNav ("C")).stack = exNav.stack ++ [none] ∧
    (handlePush 375 exNav ("C")).stack.length = exNav.stack.length + 1 ∧
    (handlePush 375 exNav ("C")).offset = 0 :=
  C2_push_invalid_appends_none 375 exNav ("C") (by decide)

/-- C3 counterexample: with screen width 375, a release at exactly half the
width (187.5, which meets the claim's inclusive 50% threshold) does not
commit a pop: the code compares `Math.floor(moveX) = 187` against `187.5`,
snaps back, and leaves the two-element stack unchanged. -/
theorem C3_release_threshold_counterexample :
    1 < exNav2.stack.length ∧
    (375 : ℚ) / 2 ≥ (375 : ℚ) / 2 ∧
    (onPanResponderRelease 375 exNav2 ((375 : ℚ) / 2)).stack = exNav2.stack ∧
    (onPanResponderRelease 375 exNav2 ((375 : ℚ) / 2)).stack.length ≠
      exNav2.stack.length - 1 := by
  have hfl : (⌊(375 : ℚ) / 2⌋ : ℤ) = 187 := by norm_num
  have hcond : ¬ (((⌊(375 : ℚ) / 2⌋ : ℤ) : ℚ) ≥ 375 / 2) := by
    rw [hfl]
    norm_num
  refine ⟨by decide, le_refl _, ?_, ?_⟩
  · unfold onPanResponderRelease
    rw [if_neg hcond]
    rfl
  · unfold onPanResponderRelease
    rw [if_neg hcond]
    decide

/-- C3 (amended): on release of an admitted drag over a stack of length
greater than 1, a full pop is committed precisely when
`⌊moveX⌋ ≥ width / 2` (then the stack shrinks by exactly one and the offset
rests at 0); otherwise — including releases at or above half the width whose
floor still falls below it, such as exactly half of an odd width — the
offset snaps back to 0 and the stack is unchanged.  Every release strictly
below half the width always snaps back, as the claim states. -/
theorem C3_release_resolution {C : Type} (w : ℚ) (s : NavState C) (x : ℚ)
    (hlen : 1 < s.stack.length) :
    (((⌊x⌋ : ℤ) : ℚ) ≥ w / 2 →
      (onPanResponderRelease w s x).stack = s.stack.dropLast ∧
      (onPanResponderRelease w s x).stack.length = s.stack.length - 1 ∧
      (onPanResponderRelease w s x).offset = 0) ∧
    (((⌊x⌋ : ℤ) : ℚ) < w / 2 →
      (onPanResponderRelease w s x).stack = s.stack ∧
      (onPanResponderRelease w s x).offset = 0) := by
  constructor
  · intro hc
    unfold onPanResponderRelease
    rw [if_pos hc]
    exact handlePop_pops w s hlen
  · intro hc
    unfold onPanResponderRelease
    rw [if_neg (not_le.mpr hc)]
    exact ⟨rfl, rfl⟩

/-- Witness for the amended C3: a release far right of the threshold pops
the two-element stack down to one. -/
theorem C3_release_resolution_witness :
    (onPanResponderRelease 375 exNav2 300).stack.length = exNav2.stack.length - 1 :=
  ((C3_release_resolution 375 exNav2 300 (by decide)).1 (by norm_num)).2.1

/-- C4 counterexample: with screen width 375 and a two-element stack, a
gesture starting at 93.5 — strictly left of `0.25 * 375 = 93.75`, so the
claim says it must be admitted — is rejected, because the code compares
against `Math.floor(375 * 0.25) = 93`. -/
theorem C4_admission_threshold_counterexample :
    1 < exNav2.stack.length ∧
    (93.5 : ℚ) < (375 : ℚ) * 0.25 ∧
    onMoveShouldSetPanResponder 375 exNav2 (93.5 : ℚ) = false := by
  have hfl : (⌊(375 : ℚ) * 0.25⌋ : ℤ) = 93 := by norm_num
  refine ⟨by decide, by norm_num, ?_⟩
  refine Bool.eq_false_iff.mpr (fun ht => ?_)
  have h2 := ((onMoveShouldSetPanResponder_eq_true_iff 375 exNav2 (93.5 : ℚ)).mp ht).2
  rw [hfl] at h2
  norm_num at h2

/-- C4 (amended): the admission predicate returns false whenever the stack
length is 1, regardless of the start position; when the stack length is
greater than 1 it returns true iff the start position is strictly less than
`⌊width * 0.25⌋` — the floor of a quarter of the width, not the quarter
itself. -/
theorem C4_admission_predicate {C : Type} (w : ℚ) (s : NavState C) (x : ℚ) :
    (s.stack.length = 1 → onMoveShouldSetPanResponder w s x = false) ∧
    (1 < s.stack.length →
      (onMoveShouldSetPanResponder w s x = true ↔ x < ((⌊w * 0.25⌋ : ℤ) : ℚ))) := by
  constructor
  · intro h1
    exact Bool.eq_false_iff.mpr
      (fun ht => ((onMoveShouldSetPanResponder_eq_true_iff w s x).mp ht).1 h1)
  · intro hlen
    rw [onMoveShouldSetPanResponder_eq_true_iff]
    exact ⟨fun h => h.2, fun h => ⟨by omega, h⟩⟩

/-- Witness for the amended C4: on the base screen a far-left start is
rejected; on a two-deep stack a start at 50 (below the floor threshold 93)
is admitted. -/
theorem C4_admission_predicate_witness :
    onMoveShouldSetPanResponder 375 exNav 50 = false ∧
    onMoveShouldSetPanResponder 375 exNav2 50 = true :=
  ⟨(C4_admission_predicate 375 exNav 50).1 rfl,
   ((C4_admission_predicate 375 exNav2 50).2 (by decide)).mpr (by norm_num)⟩

/-- C5: calling pop on a reachable state whose stack has length 1 is a
no-op — the completed operation leaves the whole state (stack, scene table
and offset) unchanged. -/
theorem C5_pop_on_base_noop {C : Type} (w : ℚ) (children : List (Child C))
    (pi : Option String) (s0 : NavState C) (h0 : mkNavigator children pi = some s0)
    (ops : List NavOp) (s : NavState C) (hs : s = applyOps w ops s0)
    (hlen : s.stack.length = 1) : handlePop w s = s := by
  have hoff : s.offset = 0 := by
    rw [hs]
    exact applyOps_offset w ops s0 (mkNavigator_fields h0).2.2
  cases s with
  | mk cfg st off =>
      simp only at hlen hoff
      subst hoff
      unfold handlePop handlePopFinish handlePopAnimate
      rw [if_neg (by simp only [hlen]; omega)]

/-- Witness for C5: popping the freshly constructed one-screen navigator
returns it unchanged. -/
theorem C5_pop_on_base_noop_witness : handlePop 375 exNav = exNav :=
  C5_pop_on_base_noop 375 exChildren none exNav rfl [] exNav rfl rfl

/-- C6: a completed pop on a stack of length greater than 1 decomposes into
the animation phase followed by the completion callback; the animation phase
drives the offset to the off-screen extreme `width` while leaving the stack
untouched, and only the completion phase removes the top element, after
which the stack length has decreased by exactly 1 and the offset rests at
0. -/
theorem C6_pop_completed {C : Type} (w : ℚ) (s : NavState C) (h : 1 < s.stack.length) :
    handlePop w s = handlePopFinish (handlePopAnimate w s) ∧
    (handlePopAnimate w s).stack = s.stack ∧
    (handlePopAnimate w s).offset = w ∧
    (handlePop w s).stack = s.stack.dropLast ∧
    (handlePop w s).stack.length = s.stack.length - 1 ∧
    (handlePop w s).offset = 0 := by
  have h1 := handlePop_pops w s h
  exact ⟨rfl, rfl, rfl, h1.1, h1.2.1, h1.2.2⟩

/-- Witness for C6 at the concrete two-screen navigator with width 375. -/
theorem C6_pop_completed_witness :
    (handlePopAnimate 375 exNav2).stack = exNav2.stack ∧
    (handlePop 375 exNav2).stack.length = exNav2.stack.length - 1 ∧
    (handlePop 375 exNav2).offset = 0 :=
  ⟨(C6_pop_completed 375 exNav2 (by decide)).2.1,
   (C6_pop_completed 375 exNav2 (by decide)).2.2.2.2.1,
   (C6_pop_completed 375 exNav2 (by decide)).2.2.2.2.2⟩

/-- C7: pushing a name present in the scene table grows the stack by exactly
one and the new top is the descriptor the table resolves for that name. -/
theorem C7_push_valid {C : Type} (w : ℚ) (s : NavState C) (name : String)
    (d : SceneDesc C) (h : s.sceneConfig name = some d) :
    (handlePush w s name).stack.length = s.stack.length + 1 ∧
    (handlePush w s name).stack.getLast? = some (some d) := by
  unfold handlePush animateTo handlePushSetValue handlePushSetState
  refine ⟨by simp, ?_⟩
  show (s.stack ++ [s.sceneConfig name]).getLast? = some (some d)
  rw [List.getLast?_concat, h]

/-- Witness for C7: pushing the declared route "B" onto the one-screen
navigator. -/
theorem C7_push_valid_witness :
    (handlePush 375 exNav ("B")).stack.length = exNav.stack.length + 1 ∧
    (handlePush 375 exNav ("B")).stack.getLast? = some (some ⟨"B", "CompB"⟩) :=
  C7_push_valid 375 exNav ("B") ⟨"B", "CompB"⟩ (by decide)

/-- C8: whenever the declared route list splits as `l₁ ++ c :: l₂` with no
later child in `l₂` re-declaring `c`'s name, the built scene table maps that
name to `c`'s descriptor.  Taking `c` as the last of several entries sharing
a name yields last-declared-wins overwrite semantics; taking `c` as a
uniquely declared entry shows every other name maps to its own
descriptor. -/
theorem C8_last_declared_wins {C : Type} (children l₁ l₂ : List (Child C)) (c : Child C)
    (hsplit : children = l₁ ++ c :: l₂) (hlast : ∀ c' ∈ l₂, c'.name ≠ c.name) :
    buildSceneConfig children c.name = some ⟨c.name, c.component⟩ := by
  subst hsplit
  unfold buildSceneConfig
  rw [List.foldl_append, List.foldl_cons, sceneConfig_foldl_skip l₂ _ c.name hlast]
  unfold sceneConfigStep
  exact if_pos rfl

/-- Witness for C8: in a list declaring "A" twice, the table maps "A" to the
descriptor of the last declaration. -/
theorem C8_last_declared_wins_witness :
    buildSceneConfig exChildren3 ("A") = some ⟨"A", "CompA2"⟩ :=
  C8_last_declared_wins exChildren3 [⟨"A", "CompA1"⟩, ⟨"B", "CompB"⟩] [] ⟨"A", "CompA2"⟩
    rfl (fun c' hc' => absurd hc' (List.not_mem_nil c'))

/-- C9: the scene table is built once at construction (it equals the table
built from the declared children) and no sequence of completed push/pop
operations ever changes it. -/
theorem C9_sceneConfig_immutable {C : Type} (w : ℚ) (children : List (Child C))
    (pi : Option String) (s0 : NavState C) (h : mkNavigator children pi = some s0)
    (ops : List NavOp) :
    s0.sceneConfig = buildSceneConfig children ∧
    (applyOps w ops s0).sceneConfig = s0.sceneConfig :=
  ⟨(mkNavigator_fields h).1, applyOps_sceneConfig w ops s0⟩

/-- Witness for C9 at the concrete navigator over a push-then-pop
sequence. -/
theorem C9_sceneConfig_immutable_witness :
    exNav.sceneConfig = buildSceneConfig exChildren ∧
    (applyOps 375 [NavOp.push ("B"), NavOp.pop] exNav).sceneConfig = exNav.sceneConfig :=
  C9_sceneConfig_immutable 375 exChildren none exNav rfl [NavOp.push ("B"), NavOp.pop]

/-- C10: push does not deduplicate — pushing a declared name whose
descriptor already sits on the stack still appends it, so the descriptor
then occurs at least twice on the stack. -/
theorem C10_push_no_dedup {C : Type} [DecidableEq C] (w : ℚ) (s : NavState C)
    (name : String) (d : SceneDesc C) (h : s.sceneConfig name = some d)
    (hmem : some d ∈ s.stack) :
    (handlePush w s name).stack = s.stack ++ [some d] ∧
    2 ≤ (handlePush w s name).stack.count (some d) := by
  unfold handlePush animateTo handlePushSetValue handlePushSetState
  have h1 : 0 < s.stack.count (some d) := List.count_pos_iff.mpr hmem
  refine ⟨by rw [h], ?_⟩
  show 2 ≤ (s.stack ++ [s.sceneConfig name]).count (some d)
  rw [h, List.count_append, List.count_singleton_self]
  omega

/-- Witness for C10: pushing "A" while its descriptor is already the base
entry leaves two copies on the stack. -/
theorem C10_push_no_dedup_witness :
    (handlePush 375 exNav ("A")).stack = exNav.stack ++ [some ⟨"A", "CompA"⟩] ∧
    2 ≤ (handlePush 375 exNav ("A")).stack.count (some ⟨"A", "CompA"⟩) :=
  C10_push_no_dedup 375 exNav ("A") ⟨"A", "CompA"⟩ (by decide) (by decide)
